import Mathlib

/-!
Verification development for the code-execution edge function of the
brain-brew repository (the `execute-code` Supabase function) and the
rate limiter of the `ai-assistant` function.

The per-request pipeline (authentication aside, which is delegated to an
external identity service) is translated into executable Lean definitions:
the denylist regex guard, the four per-language evaluators, the result
envelope, and the HTTP dispatch of the `serve` handler.  The arbitrary
user JavaScript run inside the Function-constructor sandbox is abstracted
by a `JsRun` environment describing its observable effects on the sandbox
(console calls made, and whether the run returned, threw, or never
terminated); everything else is a direct translation of the source.
-/

/-- Wire format of one execution outcome, mirroring the `ExecutionResult`
interface of the source (`output`, optional `error`, `executionTime`,
`exitCode`).  Elapsed milliseconds are modelled as a natural number. -/
structure ExecutionResult where
  output : String
  error : Option String
  executionTime : Nat
  exitCode : Nat
deriving Repr, DecidableEq

/-- Parsed request body, mirroring the `ExecuteRequest` interface. -/
structure ExecuteRequest where
  code : String
  language : String
deriving Repr, DecidableEq

/-- An HTTP response carrying a result envelope: the success path of the
handler responds with the default status 200, the catch path with 400. -/
structure HttpResponse where
  status : Nat
  body : ExecutionResult
deriving Repr, DecidableEq

/-- The single-quote character, built from its code point. -/
def quoteCh : String := (Char.ofNat 39).toString

/-- Split of a character list at every newline, as the `split` method of
JavaScript strings does with a one-character separator. -/
def splitOnNl : List Char → List (List Char)
  | [] => [[]]
  | c :: rest =>
      if c = '\n' then [] :: splitOnNl rest
      else
        match splitOnNl rest with
        | [] => [[c]]
        | h :: t => (c :: h) :: t

/-- Split of a string into its lines at every newline. -/
def splitLines (s : String) : List String :=
  (splitOnNl s.data).map (fun cs => (⟨cs⟩ : String))

/-- Whether `t` is a prefix of `s` (the `startsWith` method). -/
def strStartsWith (s t : String) : Bool :=
  t.data.isPrefixOf s.data

/-- Whether `t` is a suffix of `s` (the `endsWith` method). -/
def strEndsWith (s t : String) : Bool :=
  t.data.reverse.isPrefixOf s.data.reverse

/-- Join of a list of strings with a separator (the `join` method of
JavaScript arrays: empty list gives the empty string). -/
def joinWith (sep : String) : List String → String
  | [] => ""
  | [a] => a
  | a :: b :: rest => a ++ sep ++ joinWith sep (b :: rest)

/-- Whitespace class of JavaScript regular expressions (the set matched
by a backslash-s atom): ASCII whitespace plus the Unicode space
separators, NBSP, line/paragraph separators and the BOM. -/
def isJsWhitespace (c : Char) : Bool :=
  c = ' ' || c = '\t' || c = '\n' || c = '\r' ||
  c.val = 11 || c.val = 12 || c.val = 160 || c.val = 5760 ||
  (8192 ≤ c.val && c.val ≤ 8202) || c.val = 8232 || c.val = 8233 ||
  c.val = 8239 || c.val = 8287 || c.val = 12288 || c.val = 65279

/-- Line terminators of JavaScript (`.` without the dotAll flag matches
every character except these). -/
def isLineTerminator (c : Char) : Bool :=
  c = '\n' || c = '\r' || c.val = 8232 || c.val = 8233

/-- Single-character matcher of a JavaScript regex: an exact literal, a
case-insensitive literal (for patterns carrying the `i` flag), the
whitespace class, the dot, or a character class. -/
inductive RAtom where
  | lit (c : Char)
  | litCI (c : Char)
  | ws
  | dot
  | cls (cs : List Char)
deriving Repr, DecidableEq

/-- One item of a regex: a single atom or a starred atom.  A plus is
desugared as the atom followed by its star, which recognizes the same
language. -/
inductive RItem where
  | one (a : RAtom)
  | star (a : RAtom)
deriving Repr, DecidableEq

/-- Whether an atom matches one character. -/
def atomMatch : RAtom → Char → Bool
  | .lit a, c => a = c
  | .litCI a, c => a.toLower = c.toLower
  | .ws, c => isJsWhitespace c
  | .dot, c => !(isLineTerminator c)
  | .cls cs, c => cs.contains c

/-- Matcher for a regex against a prefix of the character list, with an
explicit fuel argument so that the recursion is structural and the
function evaluates inside the kernel.  Each recursive call shrinks the
pattern or the input, so a fuel of pattern length plus input length plus
one is always sufficient; the callers below supply exactly that. -/
def matchHereF : Nat → List RItem → List Char → Bool
  | 0, _, _ => false
  | _ + 1, [], _ => true
  | _ + 1, .one _ :: _, [] => false
  | f + 1, .one a :: ps, c :: cs => atomMatch a c && matchHereF f ps cs
  | f + 1, .star a :: ps, cs =>
      matchHereF f ps cs ||
        (match cs with
         | [] => false
         | c :: cs' => atomMatch a c && matchHereF f (RItem.star a :: ps) cs')

/-- Unanchored search, as performed by the `test` method of a JavaScript
regex: try to match at every start position. -/
def reTestChars (p : List RItem) : List Char → Bool
  | [] => matchHereF (p.length + 1) p []
  | c :: cs =>
      matchHereF (p.length + (c :: cs).length + 1) p (c :: cs) || reTestChars p cs

/-- Whether the regex matches somewhere inside the string. -/
def reTest (p : List RItem) (s : String) : Bool :=
  reTestChars p s.data

/-- A sequence of exact-literal items, one per character of the string. -/
def lits (s : String) : List RItem :=
  s.data.map (fun c => RItem.one (RAtom.lit c))

/-- A sequence of case-insensitive literal items, for the two SQL
patterns carrying the `i` flag. -/
def litsCI (s : String) : List RItem :=
  s.data.map (fun c => RItem.one (RAtom.litCI c))

/-- The fixed denylist of the guard, translated pattern by pattern from
the `dangerousPatterns` array of the source, in source order.  A
backslash-s-star becomes `star ws`, a backslash-s-plus becomes
`one ws, star ws`, a dot-star becomes `star dot`, and escaped
punctuation becomes the corresponding literal. -/
def dangerousPatterns : List (List RItem) :=
  [ lits "require" ++ [.star .ws, .one (.lit '('), .star .ws,
      .one (.cls [Char.ofNat 39, '"'])] ++ lits "child_process" ++
      [.one (.cls [Char.ofNat 39, '"'])],
    lits "import" ++ [.one .ws, .star .ws, .star .dot] ++ lits "child_process",
    lits "eval" ++ [.star .ws, .one (.lit '(')],
    lits "Function" ++ [.star .ws, .one (.lit '(')],
    lits "process" ++ [.one (.lit '.')],
    lits "fs" ++ [.one (.lit '.')],
    [.one (.lit '.')] ++ lits "exec" ++ [.star .ws, .one (.lit '(')],
    lits "spawn" ++ [.star .ws, .one (.lit '(')],
    lits "fork" ++ [.star .ws, .one (.lit '(')],
    lits "__import__",
    lits "exec" ++ [.star .ws, .one (.lit '(')],
    lits "open" ++ [.star .ws, .one (.lit '(')],
    lits "subprocess",
    lits "os" ++ [.one (.lit '.')] ++ lits "system",
    lits "rm" ++ [.one .ws, .star .ws] ++ lits "-rf",
    [.one (.lit ';'), .star .ws] ++ lits "rm" ++ [.one .ws, .star .ws],
    [.one (.lit '|'), .star .ws] ++ lits "rm" ++ [.one .ws, .star .ws],
    lits "wget" ++ [.one .ws, .star .ws],
    lits "curl" ++ [.one .ws, .star .ws],
    litsCI "DROP" ++ [.one .ws, .star .ws] ++ litsCI "TABLE",
    litsCI "DELETE" ++ [.one .ws, .star .ws] ++ litsCI "FROM" ]

/-- The guard loop of the handler: the code is rejected when any
denylist pattern matches it. -/
def matchesDangerous (code : String) : Bool :=
  dangerousPatterns.any (fun p => reTest p code)

/-- One call made by the sandboxed code on the captured console object,
with its arguments already turned into strings by the conversion the
sandbox applies (`JSON.stringify` for objects, `String` otherwise). -/
inductive ConsoleCall where
  | log (args : List String)
  | err (args : List String)
  | warn (args : List String)
deriving Repr, DecidableEq

/-- The line each console call appends to the output buffer: `log` joins
the stringified arguments with spaces, `error` and `warn` add their
prefix to the space-joined arguments. -/
def consoleLine : ConsoleCall → String
  | .log args => joinWith " " args
  | .err args => "ERROR: " ++ joinWith " " args
  | .warn args => "WARN: " ++ joinWith " " args

/-- Observable behaviour of one synchronous run of the wrapped user code
inside the Function-constructor sandbox: the console calls it made, in
order, and whether it returned normally, threw with a message, or never
terminated.  The handler's event loop is single-threaded, so the
`setTimeout` callback registered around the call can never preempt it
(and is cancelled by `clearTimeout` in the `finally` block before the
task yields): a busy-looping snippet means the call simply never
returns, which `diverges` captures. -/
inductive JsRun where
  | ok (calls : List ConsoleCall)
  | threw (calls : List ConsoleCall) (msg : String)
  | diverges
deriving Repr, DecidableEq

/-- The template-literal wrapper the evaluator puts around the user code
before handing it to the Function constructor. -/
def wrapCode (code : String) : String :=
  "\n      (function() \x7b\n        " ++ code ++ "\n      \x7d)();\n    "

/-- Translation of `executeJavaScript`.  The run of the arbitrary user
code is supplied by the environment `run`, applied to the exact wrapped
source text.  A normal return joins the buffered lines with newlines and
reports exit code 0; a thrown error reaches the `catch` block, which
returns the empty output, the message as the error, and exit code 1 (the
buffered lines are not returned); a run that never terminates produces
no result at all, hence `none`. -/
def executeJavaScript (run : String → JsRun) (code : String) :
    Option ExecutionResult :=
  match run (wrapCode code) with
  | .ok calls =>
      some { output := joinWith "\n" (calls.map consoleLine),
             error := none, executionTime := 0, exitCode := 0 }
  | .threw _ msg =>
      some { output := "", error := some msg, executionTime := 0, exitCode := 1 }
  | .diverges => none

/-- Trim of JavaScript strings: strip whitespace (including line
terminators) from both ends. -/
def jsTrim (s : String) : String :=
  ⟨((s.data.dropWhile isJsWhitespace).reverse.dropWhile isJsWhitespace).reverse⟩

/-- Whether `sub` occurs inside `cs`, at any position (the `includes`
method of JavaScript strings; the empty string occurs everywhere). -/
def subOccurs (sub : List Char) : List Char → Bool
  | [] => sub.isEmpty
  | c :: cs => sub.isPrefixOf (c :: cs) || subOccurs sub cs

/-- The `includes` method of JavaScript strings. -/
def strIncludes (s sub : String) : Bool :=
  subOccurs sub.data s.data

/-- Maximal prefix of characters the regex dot can match (everything up
to the first line terminator). -/
def dotRun (cs : List Char) : List Char :=
  cs.takeWhile (fun c => !(isLineTerminator c))

/-- Position of the closing parenthesis chosen by the greedy capture of
the print regex: the last index `j` of the dot-matchable prefix with a
closing parenthesis, with at least one captured character before it. -/
def lastParenIdx (cs : List Char) : Option Nat :=
  (((List.range (dotRun cs).length).filter
      (fun j => 1 ≤ j && (dotRun cs).get? j = some ')'))).getLast?

/-- Search of the regex `print\\((.+)\\)` over a line, returning the
capture group: at the leftmost occurrence of the literal `print(` that
is followed (within the same line, the dot not crossing a terminator) by
a closing parenthesis with at least one character captured, the greedy
capture runs to the last such parenthesis; if an occurrence has no
closing parenthesis the search resumes at the next position. -/
def printCapture : List Char → Option String
  | [] => none
  | c :: cs =>
      if List.take 6 (c :: cs) = "print(".data then
        match lastParenIdx (List.drop 6 (c :: cs)) with
        | some j => some ⟨List.take j (List.drop 6 (c :: cs))⟩
        | none => printCapture cs
      else printCapture cs

/-- Quote stripping of the simulated Python print: a content that starts
and ends with a double quote, or starts and ends with a single quote,
loses its first and last character. -/
def stripQuotes (s : String) : String :=
  if strStartsWith s "\"" && strEndsWith s "\"" then ⟨(s.data.drop 1).dropLast⟩
  else if strStartsWith s quoteCh && strEndsWith s quoteCh then ⟨(s.data.drop 1).dropLast⟩
  else s

/-- Contribution of one line to the simulated Python output: a trimmed
line starting with `print(` and matched by the print regex pushes its
quote-stripped capture; every other line pushes nothing.  The inner
try/catch of the source surrounds only string slicing, which cannot
throw, so its catch arm is dead. -/
def pythonLineOutput (line : String) : Option String :=
  let trimmed := jsTrim line
  if strStartsWith trimmed "print(" then
    (printCapture trimmed.data).map stripQuotes
  else none

/-- The helper fibonacci function at the bottom of the source file. -/
def fibonacci : Nat → Nat
  | 0 => 0
  | 1 => 1
  | n + 2 => fibonacci (n + 1) + fibonacci n

/-- Demo lines appended when the code mentions `fibonacci`: the header
and one line per index 0 through 9 (the source computes `i` for `i <= 1`
and `fibonacci(i)` otherwise, which agree with `fibonacci i`). -/
def fibDemoLines : List String :=
  "Fibonacci sequence:" ::
    (List.range 10).map (fun i => "F(" ++ toString i ++ ") = " ++ toString (fibonacci i))

/-- Demo block appended when the code mentions `json.dumps`. -/
def jsonDumpsDemo : String :=
  "\x7b\n  \"message\": \"Python is awesome!\",\n  \"numbers\": [1, 2, 3, 4, 5]\n\x7d"

/-- Translation of `executePython`: line-oriented recognition of print
statements, the two demo blocks, and the generic placeholder when the
joined output is empty.  The try body contains no throwing operation, so
the catch arm of the source is unreachable and the result always carries
exit code 0 and no error. -/
def executePython (code : String) : ExecutionResult :=
  let printed := (splitLines code).filterMap pythonLineOutput
  let out1 := if strIncludes code "fibonacci" then printed ++ fibDemoLines else printed
  let out2 := if strIncludes code "json.dumps" then out1 ++ [jsonDumpsDemo] else out1
  let joined := joinWith "\n" out2
  { output := if joined = "" then "Python code executed (simulated)" else joined,
    error := none, executionTime := 0, exitCode := 0 }

/-- Global removal of double and single quotes (the two chained
`replace` calls of the simulated echo). -/
def removeQuotes (s : String) : String :=
  ⟨s.data.filter (fun c => !(c = '"' || c = Char.ofNat 39))⟩

/-- Contribution of one line to the simulated Bash output, following the
if/else-if chain of the source; the `$(date)` arm interpolates the
current clock, supplied here as the `nowIso` parameter. -/
def bashLineOutputs (nowIso : String) (line : String) : List String :=
  let trimmed := jsTrim line
  if strStartsWith trimmed "echo " then [removeQuotes ⟨trimmed.data.drop 5⟩]
  else if strIncludes trimmed "for i in \x7b1..5\x7d" then
    (List.range 5).map (fun i => "Count: " ++ toString (i + 1))
  else if strIncludes trimmed "$(date)" then ["Current date: " ++ nowIso]
  else if strIncludes trimmed "$(pwd)" then ["Working directory: /tmp/sandbox"]
  else []

/-- Translation of `executeBash`: per-line simulation and the generic
placeholder when the joined output is empty; the try body cannot throw,
so the result always carries exit code 0 and no error. -/
def executeBash (nowIso : String) (code : String) : ExecutionResult :=
  let out := (splitLines code).flatMap (bashLineOutputs nowIso)
  let joined := joinWith "\n" out
  { output := if joined = "" then "Bash script executed (simulated)" else joined,
    error := none, executionTime := 0, exitCode := 0 }

/-- Fixed table printed by the simulated SQL select over `users`. -/
def sqlUsersRows : List String :=
  [ " id |     name      |        email        |         created_at",
    "----+---------------+---------------------+----------------------------",
    "  1 | Alice Johnson | alice@example.com   | 2024-01-15 10:30:00.000000",
    "  2 | Bob Smith     | bob@example.com     | 2024-01-15 10:30:00.000000",
    "  3 | Carol Davis   | carol@example.com   | 2024-01-15 10:30:00.000000",
    "(3 rows)" ]

/-- Fixed table printed by the simulated SQL count query. -/
def sqlCountRows : List String :=
  [ " total_users |      latest_signup",
    "-------------+----------------------------",
    "           3 | 2024-01-15 10:30:00.000000",
    "(1 row)" ]

/-- Translation of `executeSQL`: four independent substring checks
append their fixed blocks in order, with the generic placeholder when
the joined output is empty; the try body cannot throw, so the result
always carries exit code 0 and no error. -/
def executeSQL (code : String) : ExecutionResult :=
  let o1 := if strIncludes code "CREATE TEMP TABLE" then ["CREATE TABLE"] else []
  let o2 := o1 ++ (if strIncludes code "INSERT INTO" then ["INSERT 0 3"] else [])
  let o3 := o2 ++
    (if strIncludes code "SELECT" && strIncludes code "FROM users" then sqlUsersRows else [])
  let o4 := o3 ++ (if strIncludes code "COUNT(*)" then sqlCountRows else [])
  let joined := joinWith "\n" o4
  { output := if joined = "" then "SQL executed (simulated)" else joined,
    error := none, executionTime := 0, exitCode := 0 }

/-- The four supported language tags, in source order. -/
def supportedLanguages : List String :=
  ["javascript", "python", "bash", "sql"]

/-- The envelope built by the catch block of the handler: empty output,
the thrown message as the error, the constant elapsed time 0, exit code
1, and HTTP status 400. -/
def errorResponse (msg : String) : HttpResponse :=
  { status := 400,
    body := { output := "", error := some msg, executionTime := 0, exitCode := 1 } }

/-- Translation of the post-authentication body of the `serve` handler:
presence validation, length bound, language allowlist, the denylist
guard (each rejection throwing into the catch block, which answers 400
with the fixed envelope), then dispatch to the matching evaluator,
overwriting the result's elapsed time with the wall-clock span measured
around the dispatch (supplied as `elapsed`, since the start time is
taken after the guard) and answering 200.  A JavaScript run that never
terminates yields no response at all. -/
def serveExecute (run : String → JsRun) (nowIso : String) (elapsed : Nat)
    (req : ExecuteRequest) : Option HttpResponse :=
  if req.code = "" ∨ req.language = "" then
    some (errorResponse "Code and language are required")
  else if 10000 < req.code.length then
    some (errorResponse "Code too long (max 10,000 characters)")
  else if supportedLanguages.contains req.language = false then
    some (errorResponse "Unsupported language")
  else if matchesDangerous req.code = true then
    some (errorResponse "Code contains potentially dangerous operations")
  else
    let result? :=
      if req.language = "javascript" then executeJavaScript run req.code
      else if req.language = "python" then some (executePython req.code)
      else if req.language = "bash" then some (executeBash nowIso req.code)
      else some (executeSQL req.code)
    match result? with
    | none => none
    | some r => some { status := 200, body := { r with executionTime := elapsed } }

/-- A batch of independent calls of the handler: the handler holds no
per-caller state, so each request is answered by the same pure function
irrespective of its position in the sequence. -/
def serveSequence (run : String → JsRun) (nowIso : String) (elapsed : Nat)
    (reqs : List ExecuteRequest) : List (Option HttpResponse) :=
  reqs.map (serveExecute run nowIso elapsed)

/-- Per-caller record of the in-memory rate-limit store of the
`ai-assistant` function. -/
structure RateRecord where
  count : Nat
  resetTime : Nat
deriving Repr, DecidableEq

/-- The in-memory map from client id to rate record. -/
def RateStore : Type := List (String × RateRecord)

/-- The request cap per window (5 requests per minute). -/
def RATE_LIMIT : Nat := 5

/-- The window length in milliseconds. -/
def RATE_WINDOW : Nat := 60000

/-- Lookup in the store. -/
def storeGet (st : RateStore) (k : String) : Option RateRecord :=
  (List.find? (fun p => p.1 == k) st).map (fun p => p.2)

/-- Insertion or replacement in the store. -/
def storeSet (st : RateStore) (k : String) (v : RateRecord) : RateStore :=
  match st with
  | [] => [(k, v)]
  | p :: rest => if p.1 == k then (k, v) :: rest else p :: storeSet rest k v

/-- Translation of the `rateLimit` function of the `ai-assistant`
function: fetch or default the caller's record, reset the count when the
window elapsed and increment it otherwise, write the record back, and
allow the call exactly when the stored count does not exceed the cap. -/
def rateLimit (now : Nat) (clientId : String) (st : RateStore) :
    Bool × RateStore :=
  let record := (storeGet st clientId).getD
    { count := 0, resetTime := now + RATE_WINDOW }
  let record' :=
    if record.resetTime < now then { count := 1, resetTime := now + RATE_WINDOW }
    else { record with count := record.count + 1 }
  (decide (record'.count ≤ RATE_LIMIT), storeSet st clientId record')

/-- Outcomes of `n` consecutive calls of the rate limiter by one caller
at one instant, threading the store. -/
def rateLimitCalls (now : Nat) (clientId : String) :
    Nat → RateStore → List Bool
  | 0, _ => []
  | n + 1, st =>
      (rateLimit now clientId st).1 ::
        rateLimitCalls now clientId n (rateLimit now clientId st).2

/-- Whether every console call of a run is a plain `log` call. -/
def logsOnly : List ConsoleCall → Bool
  | [] => true
  | .log _ :: rest => logsOnly rest
  | .err _ :: _ => false
  | .warn _ :: _ => false

/-- The concrete snippet of the specification's first scenario: a single
console.log of the string hi (single quotes built from their code
point). -/
def snippetHi : String :=
  "console.log(" ++ quoteCh ++ "hi" ++ quoteCh ++ ")"

/-- A snippet that throws depending on the parity of the wall clock: it
passes the guard, and its two possible runs (returning normally, or
throwing) carry different exit codes. -/
def clockThrowSnippet : String :=
  "if (Date.now() % 2 === 0) \x7b throw new Error(" ++ quoteCh ++ "odd" ++
    quoteCh ++ ") \x7d"

/-- Whether a run threw (`none` for a run that never terminates): the
only datum of a JavaScript run that the exit code depends on. -/
def jsThrewStatus : JsRun → Option Bool
  | .ok _ => some false
  | .threw _ _ => some true
  | .diverges => none

/-- Expected answers of consecutive rate-limiter calls inside one
window, starting from a stored count of `c`: the k-th call is allowed
exactly when the incremented count stays within the cap. -/
def expectedCalls : Nat → Nat → List Bool
  | _, 0 => []
  | c, n + 1 => decide (c + 1 ≤ RATE_LIMIT) :: expectedCalls (c + 1) n

/-- Membership in the language allowlist rules out the empty tag. -/
theorem supported_ne_empty {l : String}
    (h : supportedLanguages.contains l = true) : ¬ l = "" := by
  intro he
  rw [he] at h
  exact absurd h (by decide)

/-- Computation of the handler on a size-valid, supported-language
request whose code matches the denylist: the guard throws and the catch
block answers with the fixed rejection envelope. -/
theorem serveExecute_guard_reject (run : String → JsRun) (nowIso : String)
    (elapsed : Nat) (req : ExecuteRequest)
    (hcode : req.code ≠ "") (hlen : req.code.length ≤ 10000)
    (hlang : supportedLanguages.contains req.language = true)
    (hmatch : matchesDangerous req.code = true) :
    serveExecute run nowIso elapsed req =
      some (errorResponse "Code contains potentially dangerous operations") := by
  have hlne : ¬ req.language = "" := supported_ne_empty hlang
  unfold serveExecute
  rw [if_neg (by tauto), if_neg (by omega), if_neg (by rw [hlang]; decide), if_pos hmatch]

/-- Computation of the handler on a valid, guard-passing JavaScript
request: the JavaScript evaluator decides the outcome, wrapped in a 200
response carrying the measured elapsed time. -/
theorem serveExecute_js_run (run : String → JsRun) (nowIso : String)
    (elapsed : Nat) (req : ExecuteRequest)
    (hlang : req.language = "javascript") (hcode : req.code ≠ "")
    (hlen : req.code.length ≤ 10000)
    (hguard : matchesDangerous req.code = false) :
    serveExecute run nowIso elapsed req =
      (executeJavaScript run req.code).map
        (fun r => { status := 200, body := { r with executionTime := elapsed } }) := by
  have hlne : ¬ req.language = "" := by simp [hlang]
  unfold serveExecute
  rw [if_neg (by tauto), if_neg (by omega), if_neg (by rw [hlang]; decide),
    if_neg (by simp [hguard]), if_pos hlang]
  cases executeJavaScript run req.code <;> rfl

/-- The simulated Python evaluator builds its result record with exit
code 0 and no error on every input. -/
theorem executePython_ok (code : String) :
    (executePython code).exitCode = 0 ∧ (executePython code).error = none :=
  ⟨rfl, rfl⟩

/-- The simulated Bash evaluator builds its result record with exit
code 0 and no error on every input. -/
theorem executeBash_ok (nowIso code : String) :
    (executeBash nowIso code).exitCode = 0 ∧ (executeBash nowIso code).error = none :=
  ⟨rfl, rfl⟩

/-- The simulated SQL evaluator builds its result record with exit
code 0 and no error on every input. -/
theorem executeSQL_ok (code : String) :
    (executeSQL code).exitCode = 0 ∧ (executeSQL code).error = none :=
  ⟨rfl, rfl⟩

/-- Every response of the handler is either the 400 rejection envelope
of the catch block or a 200 response carrying the measured elapsed
time. -/
theorem serveExecute_cases (run : String → JsRun) (nowIso : String)
    (elapsed : Nat) (req : ExecuteRequest) (resp : HttpResponse)
    (h : serveExecute run nowIso elapsed req = some resp) :
    (∃ msg, resp = errorResponse msg) ∨
      (resp.status = 200 ∧ resp.body.executionTime = elapsed) := by
  unfold serveExecute at h
  split_ifs at h with h1 h2 h3 h4 h5 h6 h7
  · exact Or.inl ⟨_, (Option.some.inj h).symm⟩
  · exact Or.inl ⟨_, (Option.some.inj h).symm⟩
  · exact Or.inl ⟨_, (Option.some.inj h).symm⟩
  · exact Or.inl ⟨_, (Option.some.inj h).symm⟩
  · unfold executeJavaScript at h
    cases hr : run (wrapCode req.code) <;> rw [hr] at h
    · have h' := Option.some.inj h
      subst h'
      exact Or.inr ⟨rfl, rfl⟩
    · have h' := Option.some.inj h
      subst h'
      exact Or.inr ⟨rfl, rfl⟩
    · exact Option.noConfusion h
  · have h' := Option.some.inj h
    subst h'
    exact Or.inr ⟨rfl, rfl⟩
  · have h' := Option.some.inj h
    subst h'
    exact Or.inr ⟨rfl, rfl⟩
  · have h' := Option.some.inj h
    subst h'
    exact Or.inr ⟨rfl, rfl⟩

/-- One rate-limiter call inside the window increments the stored count
and allows the call exactly when the new count stays within the cap. -/
theorem rateLimit_step (now : Nat) (cid : String) (c : Nat) :
    rateLimit now cid [(cid, ⟨c, now + RATE_WINDOW⟩)] =
      (decide (c + 1 ≤ RATE_LIMIT), [(cid, ⟨c + 1, now + RATE_WINDOW⟩)]) := by
  have hlt : ¬ (now + RATE_WINDOW < now) := by omega
  unfold rateLimit storeGet storeSet
  simp [List.find?, hlt]

/-- The first rate-limiter call of a caller creates its record with
count 1 and allows the call. -/
theorem rateLimit_first (now : Nat) (cid : String) :
    rateLimit now cid [] = (decide (1 ≤ RATE_LIMIT), [(cid, ⟨1, now + RATE_WINDOW⟩)]) := by
  have hlt : ¬ (now + RATE_WINDOW < now) := by omega
  unfold rateLimit storeGet storeSet
  simp [List.find?, hlt]

/-- Consecutive rate-limiter calls inside one window, starting from a
stored count, answer according to the incremented counts. -/
theorem rateLimitCalls_window (now : Nat) (cid : String) :
    ∀ n c, rateLimitCalls now cid n [(cid, ⟨c, now + RATE_WINDOW⟩)] = expectedCalls c n
  | 0, _ => rfl
  | n + 1, c => by
      have h1 : rateLimitCalls now cid (n + 1) [(cid, ⟨c, now + RATE_WINDOW⟩)] =
          (rateLimit now cid [(cid, ⟨c, now + RATE_WINDOW⟩)]).1 ::
            rateLimitCalls now cid n (rateLimit now cid [(cid, ⟨c, now + RATE_WINDOW⟩)]).2 := rfl
      rw [h1, rateLimit_step]
      rw [show ((decide (c + 1 ≤ RATE_LIMIT), [(cid, (⟨c + 1, now + RATE_WINDOW⟩ : RateRecord))]).2 : RateStore) = [(cid, ⟨c + 1, now + RATE_WINDOW⟩)] from rfl]
      rw [rateLimitCalls_window now cid n (c + 1)]
      rfl

/-- Six rate-limiter calls of one caller inside one window: the first
five are allowed, the sixth is rejected. -/
theorem rateLimitCalls_six (now : Nat) (cid : String) :
    rateLimitCalls now cid 6 [] = [true, true, true, true, true, false] := by
  have h1 : rateLimitCalls now cid 6 [] =
      (rateLimit now cid []).1 :: rateLimitCalls now cid 5 (rateLimit now cid []).2 := rfl
  rw [h1, rateLimit_first]
  rw [show ((decide (1 ≤ RATE_LIMIT), [(cid, (⟨1, now + RATE_WINDOW⟩ : RateRecord))]).2 : RateStore) = [(cid, ⟨1, now + RATE_WINDOW⟩)] from rfl]
  rw [rateLimitCalls_window now cid 5 1]
  rfl

/-- C1: a supported-language, size-valid request whose code matches a
denylist pattern is answered with the fixed rejection envelope (exit
code 1, empty output, the dangerous-operations message), independently
of the evaluator environments, the clock and the measured elapsed time:
no per-language evaluator is invoked. -/
theorem c1_guard_rejects_before_evaluators (run : String → JsRun)
    (nowIso : String) (elapsed : Nat) (req : ExecuteRequest)
    (hcode : req.code ≠ "") (hlen : req.code.length ≤ 10000)
    (hlang : supportedLanguages.contains req.language = true)
    (hmatch : matchesDangerous req.code = true) :
    serveExecute run nowIso elapsed req =
      some { status := 400,
             body := { output := "",
                       error := some "Code contains potentially dangerous operations",
                       executionTime := 0, exitCode := 1 } } :=
  serveExecute_guard_reject run nowIso elapsed req hcode hlen hlang hmatch

/-- Witness for C1 at the denylisted bash snippet of the spec. -/
theorem c1_witness :
    serveExecute (fun _ => JsRun.ok []) "T" 9 ⟨"rm -rf /", "bash"⟩ =
      some { status := 400,
             body := { output := "",
                       error := some "Code contains potentially dangerous operations",
                       executionTime := 0, exitCode := 1 } } :=
  c1_guard_rejects_before_evaluators (fun _ => JsRun.ok []) "T" 9
    ⟨"rm -rf /", "bash"⟩ (by decide) (by decide) (by decide) (by decide)

/-- C2 (refuted; the code hangs): a snippet that never terminates, such
as an unbounded loop, runs synchronously on the single-threaded event
loop; the registered timeout callback can never preempt it (and is
cancelled before it could ever fire), so the handler produces no
response at all instead of the promised timeout result. -/
theorem c2_unbounded_loop_no_response (run : String → JsRun)
    (nowIso : String) (elapsed : Nat)
    (hdiv : run (wrapCode "while(true)\x7b\x7d") = JsRun.diverges) :
    serveExecute run nowIso elapsed ⟨"while(true)\x7b\x7d", "javascript"⟩ = none := by
  rw [serveExecute_js_run run nowIso elapsed ⟨"while(true)\x7b\x7d", "javascript"⟩
    rfl (by decide) (by decide) (by decide)]
  unfold executeJavaScript
  rw [hdiv]
  rfl

/-- Witness for C2: the diverging run of the unbounded loop. -/
theorem c2_witness :
    serveExecute (fun _ => JsRun.diverges) "" 0
      ⟨"while(true)\x7b\x7d", "javascript"⟩ = none :=
  c2_unbounded_loop_no_response (fun _ => JsRun.diverges) "" 0 rfl

/-- C3: a valid, non-denylisted JavaScript snippet whose run only calls
the captured console.log is answered 200 with exit code 0, no error,
and the stringified arguments of the calls joined one line per call. -/
theorem c3_console_log_output (run : String → JsRun) (nowIso : String)
    (elapsed : Nat) (req : ExecuteRequest) (calls : List ConsoleCall)
    (hlang : req.language = "javascript") (hcode : req.code ≠ "")
    (hlen : req.code.length ≤ 10000)
    (hguard : matchesDangerous req.code = false)
    (hrun : run (wrapCode req.code) = JsRun.ok calls)
    ( _hlogs : logsOnly calls = true) :
    serveExecute run nowIso elapsed req =
      some { status := 200,
             body := { output := joinWith "\n" (calls.map consoleLine),
                       error := none, executionTime := elapsed, exitCode := 0 } } := by
  rw [serveExecute_js_run run nowIso elapsed req hlang hcode hlen hguard]
  unfold executeJavaScript
  rw [hrun]
  rfl

/-- Witness for C3 at the spec's scenario: console.log of hi yields
output hi, exit code 0, no error. -/
theorem c3_witness :
    serveExecute (fun _ => JsRun.ok [ConsoleCall.log ["hi"]]) "" 4
      ⟨snippetHi, "javascript"⟩ =
      some { status := 200,
             body := { output := "hi", error := none,
                       executionTime := 4, exitCode := 0 } } :=
  (c3_console_log_output (fun _ => JsRun.ok [ConsoleCall.log ["hi"]]) "" 4
    ⟨snippetHi, "javascript"⟩ [ConsoleCall.log ["hi"]] rfl (by decide)
    (by decide) (by decide) rfl (by decide)).trans (by decide)

/-- C4 (refuted at a concrete run): a run that buffered the line
partial and then threw boom yields empty output, not the buffered
partial content — the catch block of the evaluator discards the
buffer instead of preserving it. -/
theorem c4_counterexample :
    (executeJavaScript (fun _ => JsRun.threw [ConsoleCall.log ["partial"]] "boom")
        "console.log(1); boom()").map ExecutionResult.output = some "" ∧
    joinWith "\n" ([ConsoleCall.log ["partial"]].map consoleLine) = "partial" ∧
    ¬ ((executeJavaScript (fun _ => JsRun.threw [ConsoleCall.log ["partial"]] "boom")
        "console.log(1); boom()").map ExecutionResult.output = some "partial") := by
  decide

/-- C4 as amended: on an internal failure the result carries the thrown
message as error and exit code 1, but its output is always the empty
string — whatever was buffered before the failure is discarded. -/
theorem c4_error_discards_buffer (run : String → JsRun) (code : String)
    (calls : List ConsoleCall) (msg : String)
    (h : run (wrapCode code) = JsRun.threw calls msg) :
    executeJavaScript run code =
      some { output := "", error := some msg, executionTime := 0, exitCode := 1 } := by
  unfold executeJavaScript
  rw [h]

/-- Witness for the amended C4. -/
theorem c4_witness :
    executeJavaScript (fun _ => JsRun.threw [ConsoleCall.log ["x"]] "m") "y" =
      some { output := "", error := some "m", executionTime := 0, exitCode := 1 } :=
  c4_error_discards_buffer (fun _ => JsRun.threw [ConsoleCall.log ["x"]] "m") "y"
    [ConsoleCall.log ["x"]] "m" rfl

/-- C5 (refuted at a concrete request): a guard-rejected attempt is a
processed execution attempt, yet it is answered with HTTP status 400,
not 200. -/
theorem c5_counterexample :
    (serveExecute (fun _ => JsRun.ok []) "" 0 ⟨"rm -rf /", "bash"⟩).map
        HttpResponse.status = some 400 ∧
    ¬ ((serveExecute (fun _ => JsRun.ok []) "" 0 ⟨"rm -rf /", "bash"⟩).map
        HttpResponse.status = some 200) := by
  decide

/-- C5 as amended: an attempt that passes validation and the guard is
answered 200 even when the snippet itself failed (exit code 1 carried
inside a successful HTTP call), while a guard rejection is answered 400
like the validation errors. -/
theorem c5_status_split :
    (∀ (run : String → JsRun) (nowIso : String) (elapsed : Nat)
        (req : ExecuteRequest) (calls : List ConsoleCall) (msg : String),
        req.language = "javascript" → req.code ≠ "" → req.code.length ≤ 10000 →
        matchesDangerous req.code = false →
        run (wrapCode req.code) = JsRun.threw calls msg →
        serveExecute run nowIso elapsed req =
          some { status := 200,
                 body := { output := "", error := some msg,
                           executionTime := elapsed, exitCode := 1 } }) ∧
    (∀ (run : String → JsRun) (nowIso : String) (elapsed : Nat)
        (req : ExecuteRequest),
        req.code ≠ "" → req.code.length ≤ 10000 →
        supportedLanguages.contains req.language = true →
        matchesDangerous req.code = true →
        (serveExecute run nowIso elapsed req).map HttpResponse.status = some 400) := by
  constructor
  · intro run nowIso elapsed req calls msg hlang hcode hlen hguard hrun
    rw [serveExecute_js_run run nowIso elapsed req hlang hcode hlen hguard]
    unfold executeJavaScript
    rw [hrun]
    rfl
  · intro run nowIso elapsed req hcode hlen hlang hmatch
    rw [serveExecute_guard_reject run nowIso elapsed req hcode hlen hlang hmatch]
    rfl

/-- Witness for the amended C5: a failing snippet is answered 200 with
exit code 1; the guard-rejected snippet is answered 400. -/
theorem c5_witness :
    serveExecute (fun _ => JsRun.threw [] "m") "" 3 ⟨"boom()", "javascript"⟩ =
      some { status := 200,
             body := { output := "", error := some "m",
                       executionTime := 3, exitCode := 1 } } ∧
    (serveExecute (fun _ => JsRun.ok []) "" 3 ⟨"rm -rf /", "bash"⟩).map
        HttpResponse.status = some 400 :=
  ⟨c5_status_split.1 (fun _ => JsRun.threw [] "m") "" 3 ⟨"boom()", "javascript"⟩
      [] "m" rfl (by decide) (by decide) (by decide) rfl,
    c5_status_split.2 (fun _ => JsRun.ok []) "" 3 ⟨"rm -rf /", "bash"⟩
      (by decide) (by decide) (by decide) (by decide)⟩

/-- C6 (refuted): the code-execution handler keeps no per-caller
counter — it is a pure function of the request — so six consecutive
identical valid calls are all answered with the same evaluated 200
envelope; no call is ever rejected with a 429-equivalent. -/
theorem c6_counterexample :
    serveSequence (fun _ => JsRun.ok [ConsoleCall.log ["hi"]]) "" 1
        (List.replicate 6 ⟨snippetHi, "javascript"⟩) =
      List.replicate 6 (some
        { status := 200,
          body := { output := "hi", error := none,
                    executionTime := 1, exitCode := 0 } }) ∧
    ¬ ((serveExecute (fun _ => JsRun.ok [ConsoleCall.log ["hi"]]) "" 1
        ⟨snippetHi, "javascript"⟩).map HttpResponse.status = some 429) := by
  decide

/-- C6 as amended: the code-execution endpoint applies no rate limit
(every call in a batch of six identical requests is answered
identically, by the same pure function), while the fixed-window limiter
of the AI-assistant endpoint (cap 5 per window) answers the sixth call
of a caller inside one window with a rejection. -/
theorem c6_no_limit_here_assistant_limits (run : String → JsRun)
    (nowIso : String) (elapsed : Nat) (req : ExecuteRequest)
    (now : Nat) (cid : String) :
    serveSequence run nowIso elapsed (List.replicate 6 req) =
      List.replicate 6 (serveExecute run nowIso elapsed req) ∧
    rateLimitCalls now cid 6 [] = [true, true, true, true, true, false] :=
  ⟨List.map_replicate, rateLimitCalls_six now cid⟩

/-- C7: an empty code, an oversized code (with a language present), or
an unsupported language is rejected with the 400 envelope (exit code 1,
empty output) carrying the corresponding message, for every evaluator
environment, clock and elapsed time — so before the guard or any
evaluator can contribute. -/
theorem c7_invalid_rejected :
    (∀ (run : String → JsRun) (nowIso : String) (elapsed : Nat)
        (req : ExecuteRequest), req.code = "" →
        serveExecute run nowIso elapsed req =
          some (errorResponse "Code and language are required")) ∧
    (∀ (run : String → JsRun) (nowIso : String) (elapsed : Nat)
        (req : ExecuteRequest), 10000 < req.code.length → req.language ≠ "" →
        serveExecute run nowIso elapsed req =
          some (errorResponse "Code too long (max 10,000 characters)")) ∧
    (∀ (run : String → JsRun) (nowIso : String) (elapsed : Nat)
        (req : ExecuteRequest), req.code ≠ "" → req.code.length ≤ 10000 →
        req.language ≠ "" →
        supportedLanguages.contains req.language = false →
        serveExecute run nowIso elapsed req =
          some (errorResponse "Unsupported language")) := by
  refine ⟨?_, ?_, ?_⟩
  · intro run nowIso elapsed req hcode
    unfold serveExecute
    rw [if_pos (Or.inl hcode)]
  · intro run nowIso elapsed req hlen hlangne
    have hcode : ¬ req.code = "" := by
      intro he
      rw [he] at hlen
      exact absurd hlen (by decide)
    unfold serveExecute
    rw [if_neg (by tauto), if_pos hlen]
  · intro run nowIso elapsed req hcode hlen hlne hlang
    unfold serveExecute
    rw [if_neg (by tauto), if_neg (by omega), if_pos hlang]

/-- Witness for C7: the empty-code scenario of the spec, an oversized
code, and an unsupported language. -/
theorem c7_witness :
    serveExecute (fun _ => JsRun.ok []) "" 0 ⟨"", "javascript"⟩ =
      some (errorResponse "Code and language are required") ∧
    serveExecute (fun _ => JsRun.ok []) "" 0
      ⟨(⟨List.replicate 10001 'a'⟩ : String), "javascript"⟩ =
      some (errorResponse "Code too long (max 10,000 characters)") ∧
    serveExecute (fun _ => JsRun.ok []) "" 0 ⟨"print(1)", "ruby"⟩ =
      some (errorResponse "Unsupported language") := by
  refine ⟨c7_invalid_rejected.1 (fun _ => JsRun.ok []) "" 0 ⟨"", "javascript"⟩ rfl,
    c7_invalid_rejected.2.1 (fun _ => JsRun.ok []) "" 0
      ⟨(⟨List.replicate 10001 'a'⟩ : String), "javascript"⟩ ?_ (by decide),
    c7_invalid_rejected.2.2 (fun _ => JsRun.ok []) "" 0 ⟨"print(1)", "ruby"⟩
      (by decide) (by decide) (by decide) (by decide)⟩
  show 10000 < (String.mk (List.replicate 10001 'a')).length
  rw [show (String.mk (List.replicate 10001 'a')).length = (List.replicate 10001 'a').length from rfl,
    List.length_replicate]
  omega

/-- C8 (refuted at a concrete request): a guard rejection with measured
elapsed time 7 is answered with executionTime 0 — the constant of the
catch block — not the measured elapsed time. -/
theorem c8_counterexample :
    (serveExecute (fun _ => JsRun.ok []) "" 7 ⟨"rm -rf /", "bash"⟩).map
        (fun r => r.body.executionTime) = some 0 ∧
    ¬ ((serveExecute (fun _ => JsRun.ok []) "" 7 ⟨"rm -rf /", "bash"⟩).map
        (fun r => r.body.executionTime) = some 7) := by
  decide

/-- C8 as amended: every 200 response (evaluator success or
snippet-failure-as-result) carries the elapsed time measured around the
dispatch — which starts after the guard — while a guard rejection (like
every thrown validation error) is answered with the constant
executionTime 0. -/
theorem c8_elapsed_only_on_200 (run : String → JsRun) (nowIso : String)
    (elapsed : Nat) (req : ExecuteRequest) :
    (∀ resp, serveExecute run nowIso elapsed req = some resp →
        resp.status = 200 → resp.body.executionTime = elapsed) ∧
    (req.code ≠ "" → req.code.length ≤ 10000 →
        supportedLanguages.contains req.language = true →
        matchesDangerous req.code = true →
        (serveExecute run nowIso elapsed req).map
          (fun r => r.body.executionTime) = some 0) := by
  constructor
  · intro resp h h200
    rcases serveExecute_cases run nowIso elapsed req resp h with ⟨msg, rfl⟩ | ⟨_, he⟩
    · simp [errorResponse] at h200
    · exact he
  · intro hcode hlen hlang hmatch
    rw [serveExecute_guard_reject run nowIso elapsed req hcode hlen hlang hmatch]
    rfl

/-- Witness for the amended C8: a 200 response carrying the measured
time 5, and a guard rejection carrying 0. -/
theorem c8_witness :
    ({ status := 200,
       body := { output := "hi", error := none, executionTime := 5, exitCode := 0 } }
          : HttpResponse).body.executionTime = 5 ∧
    (serveExecute (fun _ => JsRun.ok []) "X" 9 ⟨"curl x", "bash"⟩).map
        (fun r => r.body.executionTime) = some 0 :=
  ⟨(c8_elapsed_only_on_200 (fun _ => JsRun.ok [ConsoleCall.log ["hi"]]) "" 5
      ⟨snippetHi, "javascript"⟩).1
      { status := 200,
        body := { output := "hi", error := none, executionTime := 5, exitCode := 0 } }
      (by decide) rfl,
    (c8_elapsed_only_on_200 (fun _ => JsRun.ok []) "X" 9 ⟨"curl x", "bash"⟩).2
      (by decide) (by decide) (by decide) (by decide)⟩

/-- C9 (refuted at a concrete snippet): a guard-passing snippet that
throws depending on the wall clock has two possible runs with different
exit codes (0 when it returns, 1 when it throws), so two executions of
the same snippet with no shared state can disagree on the exit code,
not only on the output. -/
theorem c9_counterexample :
    matchesDangerous clockThrowSnippet = false ∧
    (executeJavaScript (fun _ => JsRun.ok []) clockThrowSnippet).map
        ExecutionResult.exitCode = some 0 ∧
    (executeJavaScript (fun _ => JsRun.threw [] "odd") clockThrowSnippet).map
        ExecutionResult.exitCode = some 1 := by
  decide

/-- C9 as amended: the guard verdict is a pure function of the code
text, and the exit code depends only on the request and on whether the
JavaScript run threw: two calls on the same request, with arbitrary
different clocks, elapsed times and run environments, produce the same
exit code whenever their runs agree on thrown-ness (for the simulated
languages, unconditionally) — only a snippet whose thrown-ness is
itself non-deterministic can change its exit code. -/
theorem c9_exit_code_from_outcome (nowIso1 nowIso2 : String) (e1 e2 : Nat)
    (run1 run2 : String → JsRun) (req : ExecuteRequest)
    (h : jsThrewStatus (run1 (wrapCode req.code)) =
      jsThrewStatus (run2 (wrapCode req.code))) :
    (serveExecute run1 nowIso1 e1 req).map (fun r => r.body.exitCode) =
      (serveExecute run2 nowIso2 e2 req).map (fun r => r.body.exitCode) := by
  unfold serveExecute
  split_ifs with h1 h2 h3 h4 h5 h6 h7
  · rfl
  · rfl
  · rfl
  · rfl
  · unfold executeJavaScript
    cases hr1 : run1 (wrapCode req.code) <;> cases hr2 : run2 (wrapCode req.code) <;>
      rw [hr1, hr2] at h <;>
      first
      | rfl
      | simp [jsThrewStatus] at h
  · rfl
  · rfl
  · rfl

/-- Witness for the amended C9: two runs of the console.log snippet
that both return agree on the exit code across different clocks and
elapsed times. -/
theorem c9_witness :
    (serveExecute (fun _ => JsRun.ok [ConsoleCall.log ["a"]]) "X" 1
        ⟨snippetHi, "javascript"⟩).map (fun r => r.body.exitCode) =
      (serveExecute (fun _ => JsRun.ok []) "Y" 2
        ⟨snippetHi, "javascript"⟩).map (fun r => r.body.exitCode) :=
  c9_exit_code_from_outcome "X" "Y" 1 2 (fun _ => JsRun.ok [ConsoleCall.log ["a"]])
    (fun _ => JsRun.ok []) ⟨snippetHi, "javascript"⟩ rfl

/-- C10: the three simulated evaluators always return exit code 0 with
no error, for every input — their error branches are unreachable — and
a snippet matching none of the recognized text patterns still succeeds
with the fixed placeholder output of its language. -/
theorem c10_simulated_never_fail :
    (∀ code, (executePython code).exitCode = 0 ∧ (executePython code).error = none) ∧
    (∀ nowIso code,
        (executeBash nowIso code).exitCode = 0 ∧ (executeBash nowIso code).error = none) ∧
    (∀ code, (executeSQL code).exitCode = 0 ∧ (executeSQL code).error = none) ∧
    executePython "x = 1" =
      { output := "Python code executed (simulated)", error := none,
        executionTime := 0, exitCode := 0 } ∧
    executeBash "T" "ls -l" =
      { output := "Bash script executed (simulated)", error := none,
        executionTime := 0, exitCode := 0 } ∧
    executeSQL "SHOW TABLES" =
      { output := "SQL executed (simulated)", error := none,
        executionTime := 0, exitCode := 0 } :=
  ⟨executePython_ok, executeBash_ok, executeSQL_ok, by decide, by decide, by decide⟩
